import Mathlib

/-!
Verification of the training orchestration engine of
`p4-fr-sorry-math-but-love-you` (files `train_backup.py`, `checkpoint.py`)
against its natural-language specification.

The Python code is shallowly embedded: tensors of token ids become
`List (List ℤ)` (a batch of rows), Python numbers become `ℚ`/`ℤ`,
Python's `/` (which raises `ZeroDivisionError` on a zero divisor) becomes
an `Option ℚ`-valued division, and the per-batch sequence of side-effecting
operations in `train_one_epoch` becomes an explicit event trace.
-/

/-! ## Per-batch operation trace of `train_one_epoch` (train_backup.py:68-112)

Each training batch executes, in source order: the pad replacement
(line 74), the forward pass and loss under `autocast` (76-83),
`optimizer.zero_grad()` (86), `scaler.scale(loss).backward()` (87),
`scaler.unscale_(optimizer)` (88), `nn.utils.clip_grad_norm_` against
`max_grad_norm` (90-92), `scaler.step(optimizer)` (96), `scaler.update()`
(97), `losses.append` (99), the pad restoration (101), the WER / sentence
accuracy / symbol count computations (102-109), `pbar.update` (111) and
finally `lr_scheduler.step()` (112). -/
inductive AmpEvent where
  | padReplace
  | forward
  | computeLoss
  | zeroGrad
  | scaleLoss
  | backward
  | unscaleGrads
  | clipGradNorm
  | scalerStep
  | scalerUpdate
  | appendLoss
  | padRestore
  | computeMetrics
  | pbarUpdate
  | schedulerStep
deriving DecidableEq, BEq

/-- The operations one training batch performs, in the order the body of the
loop of `train_one_epoch` (train_backup.py:68-112) performs them. -/
def trainBatchEvents : List AmpEvent :=
  [.padReplace, .forward, .computeLoss, .zeroGrad, .scaleLoss, .backward,
   .unscaleGrads, .clipGradNorm, .scalerStep, .scalerUpdate, .appendLoss,
   .padRestore, .computeMetrics, .pbarUpdate, .schedulerStep]

/-- The mixed-precision / optimization-step operations singled out by the
spec's fixed-order requirement. -/
def isAmpOp : AmpEvent → Bool
  | .scaleLoss | .backward | .unscaleGrads | .clipGradNorm
  | .scalerStep | .scalerUpdate | .schedulerStep => true
  | _ => false

/-- The whole epoch's trace: the batch body is executed once per batch of the
loader. -/
def trainEpochEvents (numBatches : ℕ) : List AmpEvent :=
  (List.replicate numBatches trainBatchEvents).flatten

/-! ## Autograd gradient-tracking flag

The global autograd flag is a `Bool`; each function below maps the flag at
its call to the flag its own batch loop runs under. -/

/-- `train_one_epoch` (train_backup.py:55) opens with
`torch.set_grad_enabled(True)` and never changes the flag afterwards, so its
batches run with the flag `true` whatever it was before. -/
def train_one_epoch_grad_flag (_g : Bool) : Bool := true

/-- `valid_one_epoch` (train_backup.py:139-204) never writes the autograd
flag (it only calls `model.eval()`), so its batches run under whatever flag
was set when it was called. -/
def valid_one_epoch_grad_flag (g : Bool) : Bool := g

/-- `run_epoch` (train_backup.py:219) sets `torch.set_grad_enabled(train)`,
disabling autograd for a validation pass; `main` does not call it (it is the
superseded path: lines 507-518 and 542-553 are commented out). -/
def run_epoch_grad_flag (train : Bool) (_g : Bool) : Bool := train

/-- The autograd flag the validation batches of one epoch of `main`
(train_backup.py:520, 555) run under: `main` calls `train_one_epoch`, then
`valid_one_epoch`, and the latter leaves the flag exactly as the training
pass left it. -/
def mainEpochValidationGradFlag (g : Bool) : Bool :=
  valid_one_epoch_grad_flag (train_one_epoch_grad_flag g)

/-! ## Pad-sentinel handling in a batch (train_backup.py:72-109)

A batch's reference tensor is a list of rows of ids (`ℤ`, with `-1` the
dataset's padding sentinel). -/

/-- Line 74 / 164: `expected[expected==-1] = token_to_id[PAD]`. -/
def replaceNegOne (padId : ℤ) (t : List (List ℤ)) : List (List ℤ) :=
  t.map (fun row => row.map (fun x => if x = -1 then padId else x))

/-- Line 101 / 176: `expected[expected == token_to_id[PAD]] = -1`. -/
def restorePad (padId : ℤ) (t : List (List ℤ)) : List (List ℤ) :=
  t.map (fun row => row.map (fun x => if x = padId then -1 else x))

/-- The slice `expected[:, 1:]`: every row loses its first position. -/
def shiftOne (t : List (List ℤ)) : List (List ℤ) :=
  t.map (fun row => row.drop 1)

/-- Line 108: `torch.sum(sequence == expected[:, 1:], dim=(0, 1)).item()` —
the number of positions where the two tensors agree. -/
def countCorrect (seq ref : List (List ℤ)) : ℕ :=
  ((seq.zip ref).map (fun p => (p.1.zip p.2).countP (fun q => q.1 == q.2))).sum

/-- Line 109: `torch.sum(expected[:, 1:] != -1, dim=(0, 1)).item()` — the
number of positions whose value differs from `-1`. -/
def countNonPad (ref : List (List ℤ)) : ℕ :=
  (ref.map (fun row => row.countP (fun x => !(x == -1)))).sum

/-- What one batch of `train_one_epoch` (or `valid_one_epoch`) computes from
the raw reference tensor: the tensor fed to the model, the arg-max
prediction (the model is an opaque function of the padded reference; the
image input is irrelevant to the pad-handling data flow), the restored
reference used for WER / sentence accuracy, and the two symbol counts. -/
structure BatchPadFlow where
  modelInput : List (List ℤ)
  sequence : List (List ℤ)
  restoredExpected : List (List ℤ)
  correct_symbols : ℕ
  total_symbols : ℕ

/-- The pad-handling data flow of one batch (train_backup.py:72-109):
replace `-1` by the pad id (74), run the model on the replaced tensor (77),
take the arg-max prediction (80-81), restore pad id to `-1` (101), compute
WER and sentence accuracy from the restored tensor (102-107), and count
correct and non-pad symbols against the restored tensor shifted by one
(108-109). -/
def batchPadFlow (padId : ℤ) (model : List (List ℤ) → List (List ℤ))
    (raw : List (List ℤ)) : BatchPadFlow :=
  let expected := replaceNegOne padId raw
  let sequence := model expected
  let restored := restorePad padId expected
  { modelInput := expected
    sequence := sequence
    restoredExpected := restored
    correct_symbols := countCorrect sequence (shiftOne restored)
    total_symbols := countNonPad (shiftOne restored) }

/-! ## Run configuration, checkpoints, and checkpoint loading -/

/-- The run-configuration fields of `options` that the embedded portions of
`main` read (`Flags`' nested `optimizer.lr`, `optimizer.weight_decay`,
`optimizer.optimizer` and `scheduler.scheduler` are flattened into one
record). -/
structure Options where
  network : String
  checkpoint : String
  optimizer : String
  scheduler : String
  lr : ℚ
  weight_decay : ℚ
  max_grad_norm : ℚ
  num_epochs : ℕ
  seed : ℕ
deriving DecidableEq

/-- Memory a tensor lives on. -/
inductive Device where
  | cpu
  | cuda
deriving DecidableEq

/-- A serialized weight tensor: the device it was saved from and its data. -/
structure Tensor where
  device : Device
  data : List ℚ
deriving DecidableEq

/-- The checkpoint record (the keys of `default_checkpoint`,
checkpoint.py:8-26). -/
structure Checkpoint where
  epoch : ℕ
  train_losses : List ℚ
  train_symbol_accuracy : List ℚ
  train_sentence_accuracy : List ℚ
  train_wer : List ℚ
  validation_losses : List ℚ
  validation_symbol_accuracy : List ℚ
  validation_sentence_accuracy : List ℚ
  validation_wer : List ℚ
  lr : List ℚ
  grad_norm : List ℚ
  model : List (String × Tensor)
  configs : List (String × String)
  token_to_id : List (String × ℕ)
  id_to_token : List (ℕ × String)
  scheduler_state : List (String × ℚ)
  scheduler_name : String
deriving DecidableEq

/-- `default_checkpoint` (checkpoint.py:8-26): epoch 0, every history empty,
empty model / config / vocabulary / scheduler maps, empty scheduler name. -/
def default_checkpoint : Checkpoint :=
  { epoch := 0
    train_losses := []
    train_symbol_accuracy := []
    train_sentence_accuracy := []
    train_wer := []
    validation_losses := []
    validation_symbol_accuracy := []
    validation_sentence_accuracy := []
    validation_wer := []
    lr := []
    grad_norm := []
    model := []
    configs := []
    token_to_id := []
    id_to_token := []
    scheduler_state := []
    scheduler_name := "" }

/-- `load_checkpoint(path, cuda)` (checkpoint.py:36-41). The file at `path`
deserializes to `stored`; with `cuda` false, `torch.load` is given
`map_location=lambda storage, loc: storage`, which leaves every storage on
the host, so each model tensor is relocated to `Device.cpu`. -/
def load_checkpoint (stored : Checkpoint) (cuda : Bool) : Checkpoint :=
  if cuda then stored
  else { stored with
          model := stored.model.map (fun p => (p.1, { p.2 with device := Device.cpu })) }

/-- The checkpoint `main` starts from (train_backup.py:354-358):
`load_checkpoint(options.checkpoint, cuda=is_cuda) if options.checkpoint != ""
else default_checkpoint`. `stored` is the record the configured path
deserializes to when a path is given. -/
def mainLoadCheckpoint (opts : Options) (is_cuda : Bool) (stored : Checkpoint) :
    Checkpoint :=
  if opts.checkpoint ≠ "" then load_checkpoint stored is_cuda else default_checkpoint

/-! ## The save-if-improved policy (train_backup.py:493, 576-603) -/

/-- The composite score of the save decision (train_backup.py:578, 601):
`0.9*validation_epoch_sentence_accuracy + 0.1*(1-validation_epoch_wer)`,
with the two weights the literal constants 0.9 and 0.1. -/
def saveScore (sentence_accuracy wer : ℚ) : ℚ :=
  (9 / 10) * sentence_accuracy + (1 / 10) * (1 - wer)

/-- The save condition of line 578 as a function of the run configuration in
scope in `main`: `best_sentence_acc < 0.9*... + 0.1*(1-...)`. No field of
`options` enters the formula — the weights are the literals 0.9 / 0.1. -/
def saveConditionOf (_opts : Options) (best sentence_accuracy wer : ℚ) : Bool :=
  decide (best < saveScore sentence_accuracy wer)

/-- Modelled from the spec: the CompositeScore of spec section 3 with its
"weights must be configurable" reading — a weighted combination
`w_sent × sentence_accuracy + w_wer × (1 − word_error_rate)` whose two
weights are parameters (the configurable-weight form the claim asserts the
code uses; the code of `main` has no such parameters). -/
def compositeScoreSpecified (w_sent w_wer sentence_accuracy wer : ℚ) : ℚ :=
  w_sent * sentence_accuracy + w_wer * (1 - wer)

/-- The sequence of save decisions of the epoch loop, starting from a given
`best_sentence_acc`: each epoch contributes its validation
`(sentence accuracy, WER)` pair; the epoch saves exactly when
`best < saveScore`, and then `best` is set to that score
(train_backup.py:578-601). -/
def saveFold (best : ℚ) : List (ℚ × ℚ) → List Bool
  | [] => []
  | p :: rest =>
      let s := saveScore p.1 p.2
      decide (best < s) :: saveFold (if best < s then s else best) rest

/-- The save decisions of a whole run of `main`: `best_sentence_acc = 0.0`
at line 493 — a literal, taken from no field of the loaded checkpoint. -/
def mainSaveFlags (_loaded : Checkpoint) (epochs : List (ℚ × ℚ)) : List Bool :=
  saveFold 0 epochs

/-! ## Epoch history updates in the loop of `main` (train_backup.py:479-570) -/

/-- The ten history lists `main` binds from the loaded checkpoint before the
epoch loop (train_backup.py:479-489). -/
structure Histories where
  train_losses : List ℚ
  train_symbol_accuracy : List ℚ
  train_sentence_accuracy : List ℚ
  train_wer : List ℚ
  validation_losses : List ℚ
  validation_symbol_accuracy : List ℚ
  validation_sentence_accuracy : List ℚ
  validation_wer : List ℚ
  lr : List ℚ
  grad_norm : List ℚ
deriving DecidableEq

/-- Lines 479-489: the loop's history lists are the loaded checkpoint's. -/
def initialHistories (c : Checkpoint) : Histories :=
  { train_losses := c.train_losses
    train_symbol_accuracy := c.train_symbol_accuracy
    train_sentence_accuracy := c.train_sentence_accuracy
    train_wer := c.train_wer
    validation_losses := c.validation_losses
    validation_symbol_accuracy := c.validation_symbol_accuracy
    validation_sentence_accuracy := c.validation_sentence_accuracy
    validation_wer := c.validation_wer
    lr := c.lr
    grad_norm := c.grad_norm }

/-- The result dictionary a pass returns (train_backup.py:122-137,
195-204). -/
structure EpochResult where
  loss : ℚ
  correct_symbols : ℤ
  total_symbols : ℤ
  wer : ℚ
  num_wer : ℤ
  sent_acc : ℚ
  num_sent_acc : ℤ
  grad_norm : ℚ
deriving DecidableEq

/-- Python's true division: raises `ZeroDivisionError` on divisor 0 (modelled
as `none`), otherwise yields the exact quotient. -/
def pyDiv (a b : ℚ) : Option ℚ :=
  if b = 0 then none else some (a / b)

/-- One iteration of the epoch loop's history bookkeeping
(train_backup.py:522-570), the divisions in source order (524, 529, 534,
558, 564, 568): appends one entry to each of the nine lists fed from the
epoch's results and leaves `lr` untouched (no statement of the loop appends
to `learning_rates`); a failing division aborts the run. -/
def epochStep (s : Histories) (tr vr : EpochResult) : Option Histories := do
  let tsa ← pyDiv (tr.correct_symbols : ℚ) (tr.total_symbols : ℚ)
  let tsent ← pyDiv tr.sent_acc (tr.num_sent_acc : ℚ)
  let twer ← pyDiv tr.wer (tr.num_wer : ℚ)
  let vsa ← pyDiv (vr.correct_symbols : ℚ) (vr.total_symbols : ℚ)
  let vsent ← pyDiv vr.sent_acc (vr.num_sent_acc : ℚ)
  let vwer ← pyDiv vr.wer (vr.num_wer : ℚ)
  pure { train_losses := s.train_losses ++ [tr.loss]
         grad_norm := s.grad_norm ++ [tr.grad_norm]
         train_symbol_accuracy := s.train_symbol_accuracy ++ [tsa]
         train_sentence_accuracy := s.train_sentence_accuracy ++ [tsent]
         train_wer := s.train_wer ++ [twer]
         validation_losses := s.validation_losses ++ [vr.loss]
         validation_symbol_accuracy := s.validation_symbol_accuracy ++ [vsa]
         validation_sentence_accuracy := s.validation_sentence_accuracy ++ [vsent]
         validation_wer := s.validation_wer ++ [vwer]
         lr := s.lr }

/-- The whole epoch loop over the per-epoch (train, validation) result
pairs; an exception in any epoch terminates the run. -/
def runEpochs (s : Histories) : List (EpochResult × EpochResult) → Option Histories
  | [] => some s
  | p :: rest =>
      match epochStep s p.1 p.2 with
      | some s' => runEpochs s' rest
      | none => none

/-! ## Per-batch metric accumulation within one pass
(train_backup.py:58-65, 104-109) -/

/-- The metric contributions of one batch: the batch's mean word error rate
and sentence accuracy (the values `word_error_rate` / `sentence_acc`
return for the batch), and its correct / non-pad symbol counts. -/
structure BatchMetrics where
  wer : ℚ
  sent_acc : ℚ
  correct : ℤ
  total : ℤ
deriving DecidableEq

/-- The pass-level accumulators (train_backup.py:60-65). -/
structure Accum where
  wer : ℚ
  num_wer : ℤ
  sent_acc : ℚ
  num_sent_acc : ℤ
  correct_symbols : ℤ
  total_symbols : ℤ
deriving DecidableEq

/-- Lines 104-109: `wer += ...; num_wer += 1; sent_acc += ...;
num_sent_acc += 1; correct_symbols += ...; total_symbols += ...`. -/
def accumBatch (a : Accum) (b : BatchMetrics) : Accum :=
  { wer := a.wer + b.wer
    num_wer := a.num_wer + 1
    sent_acc := a.sent_acc + b.sent_acc
    num_sent_acc := a.num_sent_acc + 1
    correct_symbols := a.correct_symbols + b.correct
    total_symbols := a.total_symbols + b.total }

/-- A whole pass's accumulation over its batches, from the zero-initialized
accumulators (train_backup.py:60-65). -/
def accumEpoch (bs : List BatchMetrics) : Accum :=
  bs.foldl accumBatch { wer := 0, num_wer := 0, sent_acc := 0,
                        num_sent_acc := 0, correct_symbols := 0, total_symbols := 0 }

/-- The sample-weighted averaging strategy over (numerator, denominator)
pairs: the ratio of the summed numerators to the summed denominators. -/
def sampleWeighted (ps : List (ℚ × ℚ)) : ℚ :=
  (ps.map Prod.fst).sum / (ps.map Prod.snd).sum

/-- The batch-weighted averaging strategy: the plain mean of the per-batch
ratios, each batch counting once whatever its size. -/
def batchWeighted (ps : List (ℚ × ℚ)) : ℚ :=
  (ps.map (fun p => p.1 / p.2)).sum / (ps.length : ℚ)

/-! ## Optimizer construction (train_backup.py:434-454) -/

/-- One optimizer parameter group. -/
structure ParamGroup where
  lr : ℚ
  weight_decay : ℚ
deriving DecidableEq

/-- A torch optimizer, as the configuration that matters here: its
parameter groups. -/
structure Optimizer where
  param_groups : List ParamGroup
deriving DecidableEq

/-- Modelled from the spec: `get_optimizer` lives in `utils.py`, which is
not part of the repository snapshot; per section 4.1 the learning rate is
"a direct scalar assignment to every optimizer parameter group", so the
constructed optimizer's single group over `params_to_optimise` carries the
given rate and weight decay. -/
def get_optimizer (_optName : String) (lr weight_decay : ℚ) : Optimizer :=
  { param_groups := [{ lr := lr, weight_decay := weight_decay }] }

/-- The constructor arguments of `CustomCosineAnnealingWarmUpRestarts`
(train_backup.py:444). -/
structure CosineSchedulerArgs where
  T_0 : ℕ
  T_mult : ℕ
  eta_max : ℚ
  T_up : ℕ
  gamma : ℚ
deriving DecidableEq

/-- The restore of `optimizer_state = checkpoint.get("optimizer")`
(train_backup.py:441-443 and 452-454): when the loaded checkpoint carries a
saved optimizer state (`default_checkpoint` has no "optimizer" key, so a
fresh run gets `none`; a checkpoint saved by this program holds one, line
593), `optimizer.load_state_dict(optimizer_state)` replaces each parameter
group's hyperparameters — the learning rate included — with the saved
group's; with no saved state the constructed optimizer is kept. -/
def restoreOptimizerState (opt : Optimizer) (st : Option (List ParamGroup)) :
    Optimizer :=
  match st with
  | some state => { param_groups := state }
  | none => opt

/-- Lines 434-454 of `train_backup.py`: under scheduler "CustomCosine" the
optimizer is built with `lr=0`, any saved optimizer state of the loaded
checkpoint is restored into it (441-443), and the configured learning rate
goes to the scheduler as `eta_max` (with `T_0=options.num_epochs`,
`T_mult=1`, `T_up=2`, `gamma=1.`); under every other scheduler name the
optimizer is built with `lr=options.optimizer.lr` directly, the same state
restore applies (452-454), and no cosine scheduler is created.
`optimizer_state` is `checkpoint.get("optimizer")` of the loaded
checkpoint. -/
def setupOptimizer (opts : Options) (optimizer_state : Option (List ParamGroup)) :
    Optimizer × Option CosineSchedulerArgs :=
  if opts.scheduler = "CustomCosine" then
    (restoreOptimizerState (get_optimizer opts.optimizer 0 opts.weight_decay)
       optimizer_state,
     some { T_0 := opts.num_epochs, T_mult := 1, eta_max := opts.lr,
            T_up := 2, gamma := 1 })
  else
    (restoreOptimizerState (get_optimizer opts.optimizer opts.lr opts.weight_decay)
       optimizer_state,
     none)

/-! ## Concrete inputs used by witnesses and counterexamples -/

/-- A well-formed epoch result: one batch, one correct symbol out of one. -/
def exampleEpochResult : EpochResult :=
  { loss := 0, correct_symbols := 1, total_symbols := 1, wer := 0,
    num_wer := 1, sent_acc := 0, num_sent_acc := 1, grad_norm := 0 }

/-- One concrete run configuration. -/
def optsA : Options :=
  { network := "SATRN", checkpoint := "", optimizer := "Adam",
    scheduler := "StepLR", lr := 1, weight_decay := 0, max_grad_norm := 2,
    num_epochs := 10, seed := 42 }

/-- A second run configuration differing from `optsA` in every field. -/
def optsB : Options :=
  { network := "SWIN", checkpoint := "ckpt.pth", optimizer := "AdamW",
    scheduler := "CustomCosine", lr := 5, weight_decay := 1, max_grad_norm := 7,
    num_epochs := 3, seed := 7 }

/-! ## Theorems -/

/-- C3: in every training batch the mixed-precision operations execute in
the fixed order scale-loss, backward, unscale, compute/clip gradient norm,
optimizer step through the scaler, scaler update, schedule advance — and
the learning-rate schedule is advanced exactly once per batch. -/
theorem amp_ops_fixed_order :
    trainBatchEvents.filter isAmpOp =
      [AmpEvent.scaleLoss, AmpEvent.backward, AmpEvent.unscaleGrads,
       AmpEvent.clipGradNorm, AmpEvent.scalerStep, AmpEvent.scalerUpdate,
       AmpEvent.schedulerStep] ∧
    ∀ n : ℕ, (trainEpochEvents n).count AmpEvent.schedulerStep = n := by
  refine ⟨by decide, ?_⟩
  intro n
  induction n with
  | zero => simp [trainEpochEvents]
  | succ k ih =>
      have hsplit : trainEpochEvents (k + 1) = trainBatchEvents ++ trainEpochEvents k := by
        simp [trainEpochEvents, List.replicate_succ]
      have hone : trainBatchEvents.count AmpEvent.schedulerStep = 1 := by decide
      rw [hsplit, List.count_append, hone, ih]
      omega

/-- C5: the claim says the validation pass runs with autograd gradient
tracking off; on the code it does not — `train_one_epoch` sets the global
flag to `true` and `valid_one_epoch` never changes it, so in `main`'s epoch
loop the validation batches run with gradient tracking on (only the unused
`run_epoch` path disables it for a validation pass). -/
theorem validation_grad_flag_enabled :
    (∀ g : Bool, mainEpochValidationGradFlag g = true) ∧
    (∀ g : Bool, valid_one_epoch_grad_flag g = g) ∧
    (∀ g : Bool, run_epoch_grad_flag false g = false) :=
  ⟨fun _ => rfl, fun _ => rfl, fun _ => rfl⟩

/-- C4: in every batch the padding sentinel `-1` is replaced by the pad id
before the model runs (the model never sees `-1`), the pad-id positions are
restored to `-1` afterwards (before WER / sentence accuracy), and symbol
accuracy compares the arg-max prediction with the restored reference shifted
by one, counting as total only positions whose restored reference differs
from `-1`. -/
theorem pad_sentinel_flow (padId : ℤ) (hp : padId ≠ -1)
    (model : List (List ℤ) → List (List ℤ)) (raw : List (List ℤ)) :
    (∀ row ∈ (batchPadFlow padId model raw).modelInput, ∀ x ∈ row, x ≠ -1) ∧
    (batchPadFlow padId model raw).restoredExpected =
      raw.map (fun row => row.map (fun x => if x = -1 ∨ x = padId then -1 else x)) ∧
    (batchPadFlow padId model raw).correct_symbols =
      countCorrect (batchPadFlow padId model raw).sequence
        (shiftOne (batchPadFlow padId model raw).restoredExpected) ∧
    (batchPadFlow padId model raw).total_symbols =
      countNonPad (shiftOne (batchPadFlow padId model raw).restoredExpected) := by
  refine ⟨?_, ?_, rfl, rfl⟩
  · intro row hrow x hx
    simp only [batchPadFlow, replaceNegOne, List.mem_map] at hrow
    obtain ⟨r, _, rfl⟩ := hrow
    simp only [List.mem_map] at hx
    obtain ⟨y, _, rfl⟩ := hx
    by_cases h : y = -1
    · simp [h, hp]
    · simp [h]
  · show restorePad padId (replaceNegOne padId raw) = _
    simp only [restorePad, replaceNegOne, List.map_map]
    congr 1
    funext row
    simp only [Function.comp_apply, List.map_map]
    congr 1
    funext x
    by_cases h1 : x = -1
    · simp [h1]
    · by_cases h2 : x = padId <;> simp [h1, h2]

/-- The hypothesis of `pad_sentinel_flow` discharged at the concrete input
`padId = 0`, `raw = [[-1, 2]]`. -/
theorem pad_sentinel_flow_witness :
    ((0 : ℤ) ≠ -1) ∧
    (∀ row ∈ (batchPadFlow 0 id [[-1, 2]]).modelInput, ∀ x ∈ row, x ≠ -1) :=
  ⟨by decide, (pad_sentinel_flow 0 (by decide) id [[-1, 2]]).1⟩

/-- The update `if b < s then s else b` of `best_sentence_acc`
(train_backup.py:601) is the maximum of the old best and the new score. -/
theorem best_update_eq_max (b s : ℚ) : (if b < s then s else b) = max b s := by
  rcases lt_or_ge b s with h | h
  · rw [if_pos h, max_eq_right h.le]
  · rw [if_neg (not_lt_of_ge h), max_eq_left h]

/-- The save decision at index `i` of `saveFold` compares the score at `i`
against the fold of `max` over the earlier scores, seeded with the initial
best. -/
theorem saveFold_getElem (epochs : List (ℚ × ℚ)) :
    ∀ (b : ℚ) (i : ℕ) (p : ℚ × ℚ), epochs[i]? = some p →
      (saveFold b epochs)[i]? =
        some (decide (((epochs.take i).map (fun q => saveScore q.1 q.2)).foldl max b
          < saveScore p.1 p.2)) := by
  induction epochs with
  | nil =>
      intro b i p h
      simp at h
  | cons hd tl ih =>
      intro b i p h
      cases i with
      | zero =>
          simp only [List.getElem?_cons_zero, Option.some.injEq] at h
          subst h
          simp [saveFold]
      | succ j =>
          simp only [List.getElem?_cons_succ] at h
          have step := ih (max b (saveScore hd.1 hd.2)) j p h
          simp only [saveFold, List.getElem?_cons_succ, List.take_succ_cons,
            List.map_cons, List.foldl_cons, best_update_eq_max]
          exact step

/-- C1: a checkpoint save happens in an epoch iff that epoch's composite
score strictly exceeds the best score seen so far in this run; the best
starts at 0 and is not taken from the loaded checkpoint; and for the score
sequence [0.5, 0.4, 0.6, 0.6, 0.7] the saves are exactly at epochs 0, 2
and 4. -/
theorem save_iff_strict_improvement :
    (∀ (loaded : Checkpoint) (epochs : List (ℚ × ℚ)) (i : ℕ) (p : ℚ × ℚ),
        epochs[i]? = some p →
        (mainSaveFlags loaded epochs)[i]? =
          some (decide (((epochs.take i).map (fun q => saveScore q.1 q.2)).foldl max 0
            < saveScore p.1 p.2))) ∧
    (∀ loaded : Checkpoint,
        mainSaveFlags loaded
          [(1/2, 1/2), (2/5, 3/5), (3/5, 2/5), (3/5, 2/5), (7/10, 3/10)] =
          [true, false, true, false, true]) ∧
    (∀ (c1 c2 : Checkpoint) (epochs : List (ℚ × ℚ)),
        mainSaveFlags c1 epochs = mainSaveFlags c2 epochs) := by
  refine ⟨?_, ?_, fun c1 c2 epochs => rfl⟩
  · intro loaded epochs i p h
    exact saveFold_getElem epochs 0 i p h
  · intro loaded
    show saveFold 0 [(1/2, 1/2), (2/5, 3/5), (3/5, 2/5), (3/5, 2/5), (7/10, 3/10)] =
      [true, false, true, false, true]
    norm_num [saveFold, saveScore]

/-- With all six divisors nonzero, one epoch's bookkeeping succeeds and
produces the appended histories. -/
theorem epochStep_some (s : Histories) (tr vr : EpochResult)
    (h1 : tr.total_symbols ≠ 0) (h2 : tr.num_sent_acc ≠ 0) (h3 : tr.num_wer ≠ 0)
    (h4 : vr.total_symbols ≠ 0) (h5 : vr.num_sent_acc ≠ 0) (h6 : vr.num_wer ≠ 0) :
    epochStep s tr vr = some
      { train_losses := s.train_losses ++ [tr.loss]
        train_symbol_accuracy :=
          s.train_symbol_accuracy ++ [(tr.correct_symbols : ℚ) / (tr.total_symbols : ℚ)]
        train_sentence_accuracy :=
          s.train_sentence_accuracy ++ [tr.sent_acc / (tr.num_sent_acc : ℚ)]
        train_wer := s.train_wer ++ [tr.wer / (tr.num_wer : ℚ)]
        validation_losses := s.validation_losses ++ [vr.loss]
        validation_symbol_accuracy :=
          s.validation_symbol_accuracy ++ [(vr.correct_symbols : ℚ) / (vr.total_symbols : ℚ)]
        validation_sentence_accuracy :=
          s.validation_sentence_accuracy ++ [vr.sent_acc / (vr.num_sent_acc : ℚ)]
        validation_wer := s.validation_wer ++ [vr.wer / (vr.num_wer : ℚ)]
        lr := s.lr
        grad_norm := s.grad_norm ++ [tr.grad_norm] } := by
  have c1 : ((tr.total_symbols : ℤ) : ℚ) ≠ 0 := Int.cast_ne_zero.mpr h1
  have c2 : ((tr.num_sent_acc : ℤ) : ℚ) ≠ 0 := Int.cast_ne_zero.mpr h2
  have c3 : ((tr.num_wer : ℤ) : ℚ) ≠ 0 := Int.cast_ne_zero.mpr h3
  have c4 : ((vr.total_symbols : ℤ) : ℚ) ≠ 0 := Int.cast_ne_zero.mpr h4
  have c5 : ((vr.num_sent_acc : ℤ) : ℚ) ≠ 0 := Int.cast_ne_zero.mpr h5
  have c6 : ((vr.num_wer : ℤ) : ℚ) ≠ 0 := Int.cast_ne_zero.mpr h6
  simp [epochStep, pyDiv, c1, c2, c3, c4, c5, c6]

/-- Each successful epoch extends the nine fed histories by one entry and
leaves `lr` untouched. -/
theorem runEpochs_lengths (results : List (EpochResult × EpochResult)) :
    ∀ s : Histories,
    (∀ p ∈ results,
        p.1.total_symbols ≠ 0 ∧ p.1.num_sent_acc ≠ 0 ∧ p.1.num_wer ≠ 0 ∧
        p.2.total_symbols ≠ 0 ∧ p.2.num_sent_acc ≠ 0 ∧ p.2.num_wer ≠ 0) →
    ∃ s', runEpochs s results = some s' ∧
      s'.train_losses.length = s.train_losses.length + results.length ∧
      s'.train_symbol_accuracy.length = s.train_symbol_accuracy.length + results.length ∧
      s'.train_sentence_accuracy.length = s.train_sentence_accuracy.length + results.length ∧
      s'.train_wer.length = s.train_wer.length + results.length ∧
      s'.validation_losses.length = s.validation_losses.length + results.length ∧
      s'.validation_symbol_accuracy.length =
        s.validation_symbol_accuracy.length + results.length ∧
      s'.validation_sentence_accuracy.length =
        s.validation_sentence_accuracy.length + results.length ∧
      s'.validation_wer.length = s.validation_wer.length + results.length ∧
      s'.grad_norm.length = s.grad_norm.length + results.length ∧
      s'.lr = s.lr := by
  induction results with
  | nil =>
      intro s _
      refine ⟨s, rfl, ?_⟩
      simp
  | cons hd tl ih =>
      intro s h
      obtain ⟨h1, h2, h3, h4, h5, h6⟩ := h hd (List.mem_cons_self hd tl)
      have hst := epochStep_some s hd.1 hd.2 h1 h2 h3 h4 h5 h6
      obtain ⟨s', hrun, L1, L2, L3, L4, L5, L6, L7, L8, L9, L10⟩ :=
        ih _ (fun p hp => h p (List.mem_cons_of_mem hd hp))
      refine ⟨s', ?_, ?_, ?_, ?_, ?_, ?_, ?_, ?_, ?_, ?_, ?_⟩
      · show runEpochs s (hd :: tl) = some s'
        simp only [runEpochs]
        rw [hst]
        exact hrun
      all_goals simp only [List.length_cons] at *
      · simp only [List.length_append, List.length_cons, List.length_nil] at L1; omega
      · simp only [List.length_append, List.length_cons, List.length_nil] at L2; omega
      · simp only [List.length_append, List.length_cons, List.length_nil] at L3; omega
      · simp only [List.length_append, List.length_cons, List.length_nil] at L4; omega
      · simp only [List.length_append, List.length_cons, List.length_nil] at L5; omega
      · simp only [List.length_append, List.length_cons, List.length_nil] at L6; omega
      · simp only [List.length_append, List.length_cons, List.length_nil] at L7; omega
      · simp only [List.length_append, List.length_cons, List.length_nil] at L8; omega
      · simp only [List.length_append, List.length_cons, List.length_nil] at L9; omega
      · exact L10

/-- C2 (amended): over a run whose epochs all complete, the nine history
sequences that the loop feeds (train/validation loss, symbol accuracy,
sentence accuracy, WER, and mean gradient norm) are each extended by exactly
one entry per epoch — after N epochs from the empty default state they all
have length N — but the learning-rate history is never extended and keeps
length 0. -/
theorem histories_per_epoch (results : List (EpochResult × EpochResult))
    (h : ∀ p ∈ results,
        p.1.total_symbols ≠ 0 ∧ p.1.num_sent_acc ≠ 0 ∧ p.1.num_wer ≠ 0 ∧
        p.2.total_symbols ≠ 0 ∧ p.2.num_sent_acc ≠ 0 ∧ p.2.num_wer ≠ 0) :
    ∃ s', runEpochs (initialHistories default_checkpoint) results = some s' ∧
      s'.train_losses.length = results.length ∧
      s'.train_symbol_accuracy.length = results.length ∧
      s'.train_sentence_accuracy.length = results.length ∧
      s'.train_wer.length = results.length ∧
      s'.validation_losses.length = results.length ∧
      s'.validation_symbol_accuracy.length = results.length ∧
      s'.validation_sentence_accuracy.length = results.length ∧
      s'.validation_wer.length = results.length ∧
      s'.grad_norm.length = results.length ∧
      s'.lr.length = 0 := by
  obtain ⟨s', hrun, L1, L2, L3, L4, L5, L6, L7, L8, L9, L10⟩ :=
    runEpochs_lengths results (initialHistories default_checkpoint) h
  simp only [initialHistories, default_checkpoint, List.length_nil,
    zero_add] at L1 L2 L3 L4 L5 L6 L7 L8 L9 L10
  exact ⟨s', hrun, L1, L2, L3, L4, L5, L6, L7, L8, L9, by simp [L10]⟩

/-- The hypotheses of `histories_per_epoch` discharged for a one-epoch run
on a well-formed epoch result. -/
theorem histories_per_epoch_witness :
    ∃ s', runEpochs (initialHistories default_checkpoint)
        [(exampleEpochResult, exampleEpochResult)] = some s' ∧
      s'.train_losses.length = 1 ∧
      s'.train_symbol_accuracy.length = 1 ∧
      s'.train_sentence_accuracy.length = 1 ∧
      s'.train_wer.length = 1 ∧
      s'.validation_losses.length = 1 ∧
      s'.validation_symbol_accuracy.length = 1 ∧
      s'.validation_sentence_accuracy.length = 1 ∧
      s'.validation_wer.length = 1 ∧
      s'.grad_norm.length = 1 ∧
      s'.lr.length = 0 :=
  histories_per_epoch [(exampleEpochResult, exampleEpochResult)]
    (by simp [exampleEpochResult])

/-- C2 counterexample: after one completed epoch from the empty default
state, `train_losses` has one entry while the `lr` history has none, so the
claim that every history sequence — the learning rate included — grows by
one entry per epoch fails. -/
theorem histories_lr_not_extended :
    ∃ s', runEpochs (initialHistories default_checkpoint)
        [(exampleEpochResult, exampleEpochResult)] = some s' ∧
      s'.train_losses.length = 1 ∧ s'.lr.length = 0 ∧
      s'.train_losses.length ≠ s'.lr.length := by
  obtain ⟨s', hrun, L1, _, _, _, _, _, _, _, _, L10⟩ :=
    runEpochs_lengths [(exampleEpochResult, exampleEpochResult)]
      (initialHistories default_checkpoint) (by simp [exampleEpochResult])
  have e1 : s'.train_losses.length = 1 := by
    simpa [initialHistories, default_checkpoint] using L1
  have e2 : s'.lr.length = 0 := by
    simp only [initialHistories, default_checkpoint] at L10
    simp [L10]
  exact ⟨s', hrun, e1, e2, by omega⟩

/-- C8: a zero accumulated total-symbol count makes the epoch's
symbol-accuracy division fail, which terminates the run — the error is
surfaced (`none`), not replaced by a zero accuracy. -/
theorem zero_total_symbols_fatal (s : Histories) (tr vr : EpochResult)
    (rest : List (EpochResult × EpochResult)) :
    (tr.total_symbols = 0 → epochStep s tr vr = none) ∧
    (tr.total_symbols = 0 → runEpochs s ((tr, vr) :: rest) = none) ∧
    (tr.total_symbols ≠ 0 → tr.num_sent_acc ≠ 0 → tr.num_wer ≠ 0 →
      vr.total_symbols = 0 → epochStep s tr vr = none) := by
  have fatal : tr.total_symbols = 0 → epochStep s tr vr = none := by
    intro h
    simp [epochStep, pyDiv, h]
  refine ⟨fatal, ?_, ?_⟩
  · intro h
    simp only [runEpochs]
    rw [fatal h]
  · intro h1 h2 h3 h4
    have c1 : ((tr.total_symbols : ℤ) : ℚ) ≠ 0 := Int.cast_ne_zero.mpr h1
    have c2 : ((tr.num_sent_acc : ℤ) : ℚ) ≠ 0 := Int.cast_ne_zero.mpr h2
    have c3 : ((tr.num_wer : ℤ) : ℚ) ≠ 0 := Int.cast_ne_zero.mpr h3
    simp [epochStep, pyDiv, c1, c2, c3, h4]

/-- A concrete run terminated by a zero total-symbol epoch. -/
theorem zero_total_symbols_fatal_witness :
    epochStep (initialHistories default_checkpoint)
      { exampleEpochResult with total_symbols := 0 } exampleEpochResult = none :=
  (zero_total_symbols_fatal (initialHistories default_checkpoint)
    { exampleEpochResult with total_symbols := 0 } exampleEpochResult []).1 rfl

/-- Folding the per-batch accumulation over a pass adds the per-batch sums
and counts the batches. -/
theorem accumBatch_foldl (bs : List BatchMetrics) :
    ∀ a : Accum,
      bs.foldl accumBatch a =
        { wer := a.wer + (bs.map (fun b => b.wer)).sum
          num_wer := a.num_wer + (bs.length : ℤ)
          sent_acc := a.sent_acc + (bs.map (fun b => b.sent_acc)).sum
          num_sent_acc := a.num_sent_acc + (bs.length : ℤ)
          correct_symbols := a.correct_symbols + (bs.map (fun b => b.correct)).sum
          total_symbols := a.total_symbols + (bs.map (fun b => b.total)).sum } := by
  induction bs with
  | nil =>
      intro a
      simp
  | cons hd tl ih =>
      intro a
      rw [List.foldl_cons, ih (accumBatch a hd)]
      simp only [accumBatch, List.map_cons, List.sum_cons, List.length_cons]
      congr 1 <;> push_cast <;> ring

/-- The accumulators a whole pass produces: summed WER / sentence-accuracy
contributions, batch counts, and summed symbol counts. -/
theorem accumEpoch_spec (bs : List BatchMetrics) :
    accumEpoch bs =
      { wer := (bs.map (fun b => b.wer)).sum
        num_wer := (bs.length : ℤ)
        sent_acc := (bs.map (fun b => b.sent_acc)).sum
        num_sent_acc := (bs.length : ℤ)
        correct_symbols := (bs.map (fun b => b.correct)).sum
        total_symbols := (bs.map (fun b => b.total)).sum } := by
  rw [accumEpoch, accumBatch_foldl]
  simp

/-- C6: epoch-level symbol accuracy is the sample-weighted ratio of the
summed correct count to the summed non-pad count, while epoch-level WER and
sentence accuracy are the plain means of the per-batch values (one weight
per batch); on unequal batch sizes the two strategies diverge. -/
theorem epoch_averaging_strategies :
    (∀ bs : List BatchMetrics, (accumEpoch bs).total_symbols ≠ 0 →
        pyDiv ((accumEpoch bs).correct_symbols : ℚ) ((accumEpoch bs).total_symbols : ℚ) =
          some (sampleWeighted (bs.map (fun b => ((b.correct : ℚ), (b.total : ℚ)))))) ∧
    (∀ bs : List BatchMetrics, bs ≠ [] →
        pyDiv (accumEpoch bs).wer ((accumEpoch bs).num_wer : ℚ) =
          some ((bs.map (fun b => b.wer)).sum / (bs.length : ℚ)) ∧
        pyDiv (accumEpoch bs).sent_acc ((accumEpoch bs).num_sent_acc : ℚ) =
          some ((bs.map (fun b => b.sent_acc)).sum / (bs.length : ℚ))) ∧
    sampleWeighted [(1, 1), (0, 3)] ≠ batchWeighted [(1, 1), (0, 3)] := by
  refine ⟨?_, ?_, ?_⟩
  · intro bs h
    rw [accumEpoch_spec] at h ⊢
    have hc : (((bs.map (fun b => b.total)).sum : ℤ) : ℚ) ≠ 0 := Int.cast_ne_zero.mpr h
    rw [pyDiv, if_neg hc]
    congr 1
    rw [sampleWeighted, Int.cast_list_sum, Int.cast_list_sum]
    simp only [List.map_map]
    rfl
  · intro bs hne
    have hlen : (bs.length : ℤ) ≠ 0 := by
      have := List.length_pos.mpr hne
      omega
    have hq : ((bs.length : ℤ) : ℚ) ≠ 0 := Int.cast_ne_zero.mpr hlen
    rw [accumEpoch_spec]
    constructor
    · rw [pyDiv, if_neg hq]
      norm_cast
    · rw [pyDiv, if_neg hq]
      norm_cast
  · simp only [sampleWeighted, batchWeighted, List.map_cons, List.map_nil,
      List.sum_cons, List.sum_nil, List.length_cons, List.length_nil]
    norm_num

/-- C7 (amended): the composite score of the save decision is
`0.9 × sentence_accuracy + 0.1 × (1 − WER)` with both weights hard-wired
literal constants — the decision is the same under every run configuration,
and no configurable-weight form enters it. -/
theorem composite_score_hardwired :
    (∀ sa wer : ℚ,
        saveScore sa wer = compositeScoreSpecified (9 / 10) (1 / 10) sa wer) ∧
    (∀ (opts : Options) (best sa wer : ℚ),
        saveConditionOf opts best sa wer =
          decide (best < (9 / 10) * sa + (1 / 10) * (1 - wer))) ∧
    (∀ (o1 o2 : Options) (best sa wer : ℚ),
        saveConditionOf o1 best sa wer = saveConditionOf o2 best sa wer) := by
  refine ⟨fun sa wer => by rw [saveScore, compositeScoreSpecified], ?_, ?_⟩
  · intro opts best sa wer
    rfl
  · intro o1 o2 best sa wer
    rfl

/-- C7 counterexample: two run configurations that differ in every field
leave the save decision untouched, and the score the code computes is not
the configurable-weight composite score at any other weight choice — at
weights one half / one half it disagrees at sentence accuracy 1, WER 1. -/
theorem composite_score_hardwired_cx :
    optsA ≠ optsB ∧
    saveConditionOf optsA (3 / 5) 1 1 = true ∧
    saveConditionOf optsB (3 / 5) 1 1 = true ∧
    saveScore 1 1 ≠ compositeScoreSpecified (1 / 2) (1 / 2) 1 1 := by
  refine ⟨?_, ?_, ?_, ?_⟩
  · intro h
    have := congrArg Options.network h
    simp [optsA, optsB] at this
  · show decide ((3 / 5 : ℚ) < saveScore 1 1) = true
    norm_num [saveScore]
  · show decide ((3 / 5 : ℚ) < saveScore 1 1) = true
    norm_num [saveScore]
  · norm_num [saveScore, compositeScoreSpecified]

/-- C9: an empty checkpoint path yields the default empty training state
(epoch 0, empty histories, empty model and vocabulary maps); a non-empty
path without an accelerator loads the stored record with every model weight
relocated to host memory. -/
theorem checkpoint_loading :
    (∀ (opts : Options) (is_cuda : Bool) (stored : Checkpoint),
        opts.checkpoint = "" → mainLoadCheckpoint opts is_cuda stored = default_checkpoint) ∧
    (default_checkpoint.epoch = 0 ∧
     default_checkpoint.train_losses = [] ∧
     default_checkpoint.train_symbol_accuracy = [] ∧
     default_checkpoint.train_sentence_accuracy = [] ∧
     default_checkpoint.train_wer = [] ∧
     default_checkpoint.validation_losses = [] ∧
     default_checkpoint.validation_symbol_accuracy = [] ∧
     default_checkpoint.validation_sentence_accuracy = [] ∧
     default_checkpoint.validation_wer = [] ∧
     default_checkpoint.lr = [] ∧
     default_checkpoint.grad_norm = [] ∧
     default_checkpoint.model = [] ∧
     default_checkpoint.token_to_id = [] ∧
     default_checkpoint.id_to_token = []) ∧
    (∀ (opts : Options) (stored : Checkpoint), opts.checkpoint ≠ "" →
        ∀ p ∈ (mainLoadCheckpoint opts false stored).model, p.2.device = Device.cpu) := by
  refine ⟨?_, ?_, ?_⟩
  · intro opts is_cuda stored h
    simp [mainLoadCheckpoint, h]
  · exact ⟨rfl, rfl, rfl, rfl, rfl, rfl, rfl, rfl, rfl, rfl, rfl, rfl, rfl, rfl⟩
  · intro opts stored h p hp
    simp only [mainLoadCheckpoint, if_pos h, load_checkpoint, if_neg (Bool.false_ne_true),
      List.mem_map] at hp
    obtain ⟨q, _, rfl⟩ := hp
    rfl

/-- The hypotheses of `checkpoint_loading` discharged at a concrete non-empty
checkpoint path and a stored record holding one accelerator-resident
tensor. -/
theorem checkpoint_loading_witness :
    ∀ p ∈ (mainLoadCheckpoint optsB false
        { default_checkpoint with
            model := [("w", { device := Device.cuda, data := [1] })] }).model,
      p.2.device = Device.cpu :=
  checkpoint_loading.2.2 optsB
    { default_checkpoint with model := [("w", { device := Device.cuda, data := [1] })] }
    (by simp [optsB])

/-- C10 (amended): with scheduler "CustomCosine" the optimizer is
constructed with learning rate 0 and the configured rate reaches the
scheduler as `eta_max` with `T_0 = num_epochs`, `T_mult = 1`, `T_up = 2`,
`gamma = 1`, whatever optimizer state the checkpoint holds; on a fresh run
(no saved optimizer state) every parameter group therefore carries rate 0
before the scheduler's first per-batch step, but on a resumed run the
restore of the saved optimizer state overwrites the parameter groups with
the saved hyperparameters; with any other scheduler name the optimizer is
constructed directly with the configured rate (on a fresh run its groups
carry that rate), subject to the same state restore. -/
theorem custom_cosine_setup :
    (∀ opts : Options, opts.scheduler = "CustomCosine" →
        (∀ st, (setupOptimizer opts st).2 =
          some { T_0 := opts.num_epochs, T_mult := 1, eta_max := opts.lr,
                 T_up := 2, gamma := 1 }) ∧
        (∀ g ∈ (setupOptimizer opts none).1.param_groups, g.lr = 0)) ∧
    (∀ opts : Options, opts.scheduler ≠ "CustomCosine" →
        (∀ st, (setupOptimizer opts st).2 = none) ∧
        (∀ g ∈ (setupOptimizer opts none).1.param_groups, g.lr = opts.lr)) ∧
    (∀ (opts : Options) (state : List ParamGroup),
        (setupOptimizer opts (some state)).1.param_groups = state) := by
  refine ⟨?_, ?_, ?_⟩
  · intro opts h
    constructor
    · intro st
      simp [setupOptimizer, h]
    · intro g hg
      simp only [setupOptimizer, if_pos h, restoreOptimizerState, get_optimizer,
        List.mem_singleton] at hg
      rw [hg]
  · intro opts h
    constructor
    · intro st
      simp [setupOptimizer, h]
    · intro g hg
      simp only [setupOptimizer, if_neg h, restoreOptimizerState, get_optimizer,
        List.mem_singleton] at hg
      rw [hg]
  · intro opts state
    by_cases h : opts.scheduler = "CustomCosine" <;>
      simp [setupOptimizer, h, restoreOptimizerState]

/-- C10 counterexample: a "CustomCosine" run resumed from a checkpoint whose
saved optimizer state carries learning rate 5 — the restored parameter group
keeps rate 5, so not every parameter group carries rate 0 before the
scheduler's first step (the original unconditional claim fails on resumed
runs). -/
theorem custom_cosine_setup_cx :
    optsB.scheduler = "CustomCosine" ∧
    (setupOptimizer optsB (some [{ lr := 5, weight_decay := 1 }])).1.param_groups =
      [{ lr := 5, weight_decay := 1 }] ∧
    ¬ (∀ g ∈ (setupOptimizer optsB
          (some [{ lr := 5, weight_decay := 1 }])).1.param_groups, g.lr = 0) := by
  refine ⟨rfl, ?_, ?_⟩
  · simp [setupOptimizer, optsB, restoreOptimizerState]
  · intro H
    have h5 := H { lr := 5, weight_decay := 1 }
      (by simp [setupOptimizer, optsB, restoreOptimizerState])
    norm_num at h5

/-- The branch hypotheses of `custom_cosine_setup` discharged at the
concrete fresh-run configurations `optsB` (scheduler "CustomCosine") and
`optsA` (scheduler "StepLR"). -/
theorem custom_cosine_setup_witness :
    ((setupOptimizer optsB none).2 =
        some { T_0 := optsB.num_epochs, T_mult := 1, eta_max := optsB.lr,
               T_up := 2, gamma := 1 }) ∧
    (∀ g ∈ (setupOptimizer optsB none).1.param_groups, g.lr = 0) ∧
    (∀ g ∈ (setupOptimizer optsA none).1.param_groups, g.lr = optsA.lr) :=
  ⟨(custom_cosine_setup.1 optsB rfl).1 none,
   (custom_cosine_setup.1 optsB rfl).2,
   (custom_cosine_setup.2.1 optsA (by simp [optsA])).2⟩
